import Mathlib

/-!
Verification development for the Pay2Go payment orchestration system.

The development shallowly embeds the transaction-refund core of the
repository:

- the Refund entity and its state machine (from
  internal/domain/entities in the source tree);
- the refund use case RefundTransactionUseCase.Execute (from
  internal/usecases/transaction/refund_transaction.go);
- the payment use case ProcessPaymentUseCase.Execute (from
  internal/usecases/transaction/process_payment.go);
- the plain GORM-backed create-transaction path (repositories and
  usecases packages);
- the Money value object and the Transaction entity, whose source files
  are not part of the tree and are therefore modelled from the
  specification, as marked in the doc comment of every such definition.

Machine integers do not overflow in the source for the ranges involved,
so amounts are Int and timestamps are Int seconds.  Fallible Go methods
returning (value, error) are embedded as Except; a method that mutates
its receiver and returns an error is embedded as a function from the
receiver to Except of the updated receiver, the receiver being unchanged
when an error is returned, exactly as in Go.
-/

/-- Domain error values.  Each constructor corresponds to one of the
error variables or error constructors of the errors package of the
source (ErrTransactionNotFound, ErrUnauthorizedOperation,
ErrRefundNotAllowed, ErrRefundWindowExpired, ErrRefundAmountExceeded,
ErrInvalidAmount, ErrInvalidCurrency, NewValidationError,
NewBusinessRuleError), plus constructors for wrapped collaborator and
store failures, and for the Money arithmetic failures described by the
specification. -/
inductive DomainErr where
  | transactionNotFound
  | unauthorizedOperation
  | refundNotAllowed
  | refundWindowExpired
  | refundAmountExceeded
  | invalidAmount
  | invalidCurrency
  | currencyMismatch
  | negativeResult
  | validationError (field msg : String)
  | businessRule (rule msg : String)
  | dependency (msg : String)
  | storeFailure (msg : String)
deriving Repr, DecidableEq

/-- Modelled from the spec: the fixed allow-list of active currencies
(section 3 of the spec; the concrete codes are the rows of the
currencies table in the database design document: USD, EUR, GBP, JPY,
THB).  The source file for the currency value object is not in the
tree. -/
def activeCurrencies : List String := ["USD", "EUR", "GBP", "JPY", "THB"]

/-- Modelled from the spec: Money is an integer amount in the currency's
minor units together with a 3-letter currency code (spec section 3).
The source file money.go is not in the tree; the unit tests of the tree
exercise exactly this integer representation. -/
structure Money where
  amount : Int
  currency : String
deriving Repr, DecidableEq

/-- Modelled from the spec: Money.create fails if amount is below 1 or
above 10000000 minor units or the currency is not on the active
allow-list (spec section 4.1); otherwise it returns the Money value
unchanged. -/
def NewMoney (amount : Int) (currency : String) : Except DomainErr Money :=
  if amount < 1 then .error .invalidAmount
  else if amount > 10000000 then .error .invalidAmount
  else if ¬ (activeCurrencies.contains currency) then .error .invalidCurrency
  else .ok ⟨amount, currency⟩

/-- Modelled from the spec: Money.add rejects cross-currency operands
with an error and otherwise adds the amounts (spec section 4.1). -/
def Money.add (a b : Money) : Except DomainErr Money :=
  if a.currency ≠ b.currency then .error .currencyMismatch
  else .ok ⟨a.amount + b.amount, a.currency⟩

/-- Modelled from the spec: Money.subtract rejects cross-currency
operands, fails with a negative-result error when the difference would
be negative, and never clamps (spec section 4.1). -/
def Money.subtract (a b : Money) : Except DomainErr Money :=
  if a.currency ≠ b.currency then .error .currencyMismatch
  else if a.amount - b.amount < 0 then .error .negativeResult
  else .ok ⟨a.amount - b.amount, a.currency⟩

/-- Modelled from the spec: amount comparison used by the refund use
case.  The Go signature returns a bare Bool, so the comparison is on
amounts; in the refund use case the result is only consulted in a
position where the cross-currency case is caught by the subsequent
currency-equality check with the same resulting error, so the embedding
of the use case does not depend on the cross-currency semantics of this
function. -/
def Money.isGreaterThan (a b : Money) : Bool :=
  decide (a.amount > b.amount)

/-- Modelled from the spec: validity of a currency code is membership in
the active allow-list.  The source file for the currency value object is
not in the tree; the Refund entity of the tree calls this predicate. -/
def currencyIsValid (c : String) : Bool :=
  activeCurrencies.contains c

/-- Refund status enum, from the source Refund entity. -/
inductive RefundStatus where
  | pending
  | processing
  | completed
  | failed
deriving Repr, DecidableEq

/-- Refund entity, from the source.  Pointer-typed timestamps of the
source become Option; plain string fields keep the Go zero value as the
empty string.  UUIDs are embedded as Nat with 0 standing for uuid.Nil,
and time.Time as Int seconds. -/
structure Refund where
  id : Nat
  transactionID : Nat
  amount : Money
  status : RefundStatus
  reason : String
  providerRefundID : String
  errorCode : String
  errorMessage : String
  createdAt : Int
  updatedAt : Int
  processedAt : Option Int
  deletedAt : Option Int
deriving Repr, DecidableEq

/-- NewRefund, from the source: validates that the transaction id is not
nil, the reason is not empty and the currency is valid, and returns a
pending refund timestamped now.  The uuid.New() call of the source
becomes the explicit newID argument. -/
def NewRefund (newID : Nat) (transactionID : Nat) (amount : Money)
    (reason : String) (now : Int) : Except DomainErr Refund :=
  if transactionID = 0 then
    .error (.validationError "transaction_id" "cannot be empty")
  else if reason = "" then
    .error (.validationError "reason" "cannot be empty")
  else if ¬ currencyIsValid amount.currency then
    .error .invalidCurrency
  else
    .ok { id := newID, transactionID := transactionID, amount := amount,
          status := .pending, reason := reason, providerRefundID := "",
          errorCode := "", errorMessage := "",
          createdAt := now, updatedAt := now,
          processedAt := none, deletedAt := none }

/-- Refund.MarkAsProcessing, from the source: legal only from pending. -/
def Refund.markAsProcessing (r : Refund) (now : Int) : Except DomainErr Refund :=
  if r.status ≠ .pending then
    .error (.businessRule "invalid_state_transition" "can only process pending refunds")
  else
    .ok { r with status := .processing, updatedAt := now }

/-- Refund.MarkAsCompleted, from the source: legal only from processing;
records the provider refund id, sets the processed timestamp and clears
the error code and message. -/
def Refund.markAsCompleted (r : Refund) (providerRefundID : String) (now : Int) :
    Except DomainErr Refund :=
  if r.status ≠ .processing then
    .error (.businessRule "invalid_state_transition" "can only complete processing refunds")
  else
    .ok { r with
          status := .completed,
          providerRefundID := providerRefundID,
          processedAt := some now,
          updatedAt := now,
          errorCode := "",
          errorMessage := "" }

/-- Refund.MarkAsFailed, from the source: legal from pending or
processing (the source guard reads status != processing and
status != pending); records the error code and message. -/
def Refund.markAsFailed (r : Refund) (errorCode errorMessage : String) (now : Int) :
    Except DomainErr Refund :=
  if r.status ≠ .processing ∧ r.status ≠ .pending then
    .error (.businessRule "invalid_state_transition" "can only fail pending or processing refunds")
  else
    .ok { r with
          status := .failed,
          errorCode := errorCode,
          errorMessage := errorMessage,
          updatedAt := now }

/-- Transaction status enum, from the database design and the spec
(section 4.2). -/
inductive TransactionStatus where
  | pending
  | processing
  | completed
  | failed
  | cancelled
  | refunded
  | partiallyRefunded
deriving Repr, DecidableEq

/-- Modelled from the spec: the Transaction aggregate root (spec
section 3).  The source file transaction.go of the domain entities is
not in the tree; only its callers are.  UUIDs are Nat, timestamps Int
seconds, nullable fields Option. -/
structure Transaction where
  id : Nat
  partnerID : Nat
  amount : Money
  idempotencyKey : String
  status : TransactionStatus
  providerTransactionID : Option String
  retryCount : Nat
  errorCode : Option String
  errorMessage : Option String
  createdAt : Int
  updatedAt : Int
  completedAt : Option Int
  failedAt : Option Int
  deletedAt : Option Int
deriving Repr, DecidableEq

/-- Ninety days in seconds; the window constant of the refund rules. -/
def ninetyDaysSeconds : Int := 90 * 86400

/-- Modelled from the spec: isRefundable is true only if the status is
completed or partially refunded and the completion timestamp lies within
the rolling 90-day window from the current time, the boundary included
(spec sections 4.2 and its numeric edge policy). -/
def Transaction.isRefundable (t : Transaction) (now : Int) : Bool :=
  if t.status = .completed ∨ t.status = .partiallyRefunded then
    match t.completedAt with
    | some c => decide (now - c ≤ ninetyDaysSeconds)
    | none => false
  else false

/-- Modelled from the spec: markAsProcessing is legal only from pending
or failed (spec section 4.2). -/
def Transaction.markAsProcessing (t : Transaction) (now : Int) :
    Except DomainErr Transaction :=
  if t.status = .pending ∨ t.status = .failed then
    .ok { t with status := .processing, updatedAt := now }
  else
    .error (.businessRule "invalid_state_transition" "can only process pending or failed transactions")

/-- Modelled from the spec: markAsCompleted is legal only from
processing; sets the completion timestamp and provider transaction id
and clears the error fields (spec section 4.2). -/
def Transaction.markAsCompleted (t : Transaction) (providerTransactionID : String)
    (now : Int) : Except DomainErr Transaction :=
  if t.status = .processing then
    .ok { t with
          status := .completed,
          providerTransactionID := some providerTransactionID,
          completedAt := some now,
          updatedAt := now,
          errorCode := none,
          errorMessage := none }
  else
    .error (.businessRule "invalid_state_transition" "can only complete processing transactions")

/-- Modelled from the spec: markAsFailed is legal only from processing
and records the error code and message without touching counters (spec
section 4.2). -/
def Transaction.markAsFailed (t : Transaction) (errorCode errorMessage : String)
    (now : Int) : Except DomainErr Transaction :=
  if t.status = .processing then
    .ok { t with
          status := .failed,
          errorCode := some errorCode,
          errorMessage := some errorMessage,
          failedAt := some now,
          updatedAt := now }
  else
    .error (.businessRule "invalid_state_transition" "can only fail processing transactions")

/-- Modelled from the spec: markAsRefunded is legal from completed, and
from partially refunded for further refunds (isRefundable explicitly
admits further partial refunds from partially refunded); it is never
legal from refunded or any other state, so the refunded state cannot be
left (spec section 4.2). -/
def Transaction.markAsRefunded (t : Transaction) ( partialFlag : Bool) (now : Int) :
    Except DomainErr Transaction :=
  if t.status = .completed ∨ t.status = .partiallyRefunded then
    .ok { t with
          status := if partialFlag then .partiallyRefunded else .refunded,
          updatedAt := now }
  else
    .error (.businessRule "invalid_state_transition" "can only refund completed transactions")

/-- Modelled from the spec: status query used by the payment use case. -/
def Transaction.isPending (t : Transaction) : Bool :=
  decide (t.status = .pending)

/-- Modelled from the spec: status query used by the payment use case. -/
def Transaction.isFailed (t : Transaction) : Bool :=
  decide (t.status = .failed)

/-- The durable store visible to the use cases: the transactions and
refunds tables. -/
structure Store where
  transactions : List Transaction
  refunds : List Refund
deriving Repr, DecidableEq

/-- Modelled from the spec: loading a transaction by id returns the
first non-soft-deleted row with that id, or nothing (spec section 4.4
step 1). -/
def Store.getTransactionByID (st : Store) (id : Nat) : Option Transaction :=
  st.transactions.find? (fun t => t.id = id ∧ t.deletedAt = none)

/-- Modelled from the spec: the sum, in minor units, of the amounts of
all refunds in completed status for the given transaction (spec
sections 4.4 step 7 and 6); this is the store operation behind
GetTotalRefundedAmount of the source use case. -/
def Store.sumCompletedRefunds (st : Store) (transactionID : Nat) : Int :=
  (st.refunds.filter
      (fun r => r.transactionID = transactionID ∧ r.status = .completed)).foldl
    (fun s r => s + r.amount.amount) 0

/-- Inserting a refund row. -/
def Store.insertRefund (st : Store) (r : Refund) : Store :=
  { st with refunds := st.refunds ++ [r] }

/-- Updating a refund row in place, matched by id. -/
def Store.updateRefund (st : Store) (r : Refund) : Store :=
  { st with refunds := st.refunds.map (fun x => if x.id = r.id then r else x) }

/-- Updating a transaction row in place, matched by id. -/
def Store.updateTransaction (st : Store) (t : Transaction) : Store :=
  { st with transactions := st.transactions.map (fun x => if x.id = t.id then t else x) }

/-- The collaborators of the refund use case for a single execution: the
refund id the entity constructor will draw, the payment gateway outcome,
and the success or failure of each fallible store call, one flag per
call site of the source. -/
structure RefundDeps where
  newRefundID : Nat
  processRefund : Except String String
  createRefundOk : Bool
  updateRefundProcessingOk : Bool
  updateRefundFailedOk : Bool
  updateRefundCompletedOk : Bool
  updateTransactionOk : Bool
deriving Repr

/-- Input of the refund use case, from the source
RefundTransactionInput. -/
structure RefundInput where
  transactionID : Nat
  partnerID : Nat
  amount : Int
  currency : String
  reason : String
deriving Repr, DecidableEq

/-- RefundTransactionUseCase.Execute, from the source, step for step:
load and authorize the transaction, check refundability and the 90-day
window measured from CreatedAt, build the refund Money, check the
single-refund bound, read the completed-refund total and check the
cumulative bound, check the currency, create and persist the refund,
mark it processing and persist, call the gateway (marking the refund
failed and persisting on gateway error, both results discarded as in the
source), mark it completed and persist, then mark the transaction
refunded or partially refunded by whether the cumulative total reached
the transaction amount, and persist the transaction.  The pair returned
is the Go (result, error) pair together with the state the store was
left in. -/
def RefundExecute (now : Int) (st : Store) (deps : RefundDeps)
    (input : RefundInput) : Except DomainErr Refund × Store :=
  match st.getTransactionByID input.transactionID with
  | none => (.error .transactionNotFound, st)
  | some transaction =>
    if transaction.partnerID ≠ input.partnerID then
      (.error .unauthorizedOperation, st)
    else if ¬ transaction.isRefundable now then
      (.error .refundNotAllowed, st)
    else if transaction.createdAt < now - ninetyDaysSeconds then
      (.error .refundWindowExpired, st)
    else
      match NewMoney input.amount input.currency with
      | .error e => (.error e, st)
      | .ok refundMoney =>
        if refundMoney.isGreaterThan transaction.amount then
          (.error .refundAmountExceeded, st)
        else
          let totalRefunded := st.sumCompletedRefunds transaction.id
          if totalRefunded + input.amount > transaction.amount.amount then
            (.error .refundAmountExceeded, st)
          else if refundMoney.currency ≠ transaction.amount.currency then
            (.error (.validationError "currency" "must match transaction currency"), st)
          else
            match NewRefund deps.newRefundID transaction.id refundMoney input.reason now with
            | .error e => (.error e, st)
            | .ok refund =>
              if ¬ deps.createRefundOk then
                (.error (.storeFailure "failed to create refund"), st)
              else
                let st1 := st.insertRefund refund
                match refund.markAsProcessing now with
                | .error e => (.error e, st1)
                | .ok refund1 =>
                  if ¬ deps.updateRefundProcessingOk then
                    (.error (.storeFailure "failed to update refund"), st1)
                  else
                    let st2 := st1.updateRefund refund1
                    match deps.processRefund with
                    | .error gatewayErr =>
                      let refund2 :=
                        match refund1.markAsFailed "REFUND_FAILED" gatewayErr now with
                        | .ok r => r
                        | .error _ => refund1
                      let st3 :=
                        if deps.updateRefundFailedOk then st2.updateRefund refund2 else st2
                      (.error (.dependency gatewayErr), st3)
                    | .ok providerRefundID =>
                      match refund1.markAsCompleted providerRefundID now with
                      | .error e => (.error e, st2)
                      | .ok refund2 =>
                        if ¬ deps.updateRefundCompletedOk then
                          (.error (.storeFailure "failed to update refund"), st2)
                        else
                          let st3 := st2.updateRefund refund2
                          let isFullRefund : Bool :=
                            decide (totalRefunded + input.amount ≥ transaction.amount.amount)
                          match transaction.markAsRefunded (! isFullRefund) now with
                          | .error e => (.error e, st3)
                          | .ok transaction1 =>
                            if ¬ deps.updateTransactionOk then
                              (.error (.storeFailure "failed to update transaction"), st3)
                            else
                              (.ok refund2, st3.updateTransaction transaction1)

/-- The collaborators of the payment use case for a single execution. -/
structure PaymentDeps where
  processPayment : Except String String
  updateProcessingOk : Bool
  updateFailedOk : Bool
  updateCompletedOk : Bool
deriving Repr

/-- ProcessPaymentUseCase.Execute, from the source: load the
transaction, require pending or failed, mark processing and persist,
call the gateway, and on gateway error mark the transaction failed with
code PAYMENT_FAILED and the gateway message, persist (result discarded
as in the source) and propagate the error; on success mark completed and
persist. -/
def ProcessPaymentExecute (now : Int) (st : Store) (deps : PaymentDeps)
    (transactionID : Nat) : Except DomainErr Unit × Store :=
  match st.getTransactionByID transactionID with
  | none => (.error .transactionNotFound, st)
  | some transaction =>
    if ¬ (transaction.isPending || transaction.isFailed) then
      (.error (.businessRule "invalid_state" "transaction cannot be processed from its state"), st)
    else
      match transaction.markAsProcessing now with
      | .error e => (.error e, st)
      | .ok t1 =>
        if ¬ deps.updateProcessingOk then
          (.error (.storeFailure "failed to update transaction"), st)
        else
          let st1 := st.updateTransaction t1
          match deps.processPayment with
          | .error gatewayErr =>
            let t2 :=
              match t1.markAsFailed "PAYMENT_FAILED" gatewayErr now with
              | .ok t => t
              | .error _ => t1
            let st2 := if deps.updateFailedOk then st1.updateTransaction t2 else st1
            (.error (.dependency gatewayErr), st2)
          | .ok providerTxnID =>
            match t1.markAsCompleted providerTxnID now with
            | .error e => (.error e, st1)
            | .ok t2 =>
              if ¬ deps.updateCompletedOk then
                (.error (.storeFailure "failed to update transaction"), st1)
              else
                (.ok (), st1.updateTransaction t2)

/-- The transaction record of the plain GORM subsystem of the tree
(entities/transaction.go): a gorm.Model id plus user id, float amount
and free-form status.  It carries no partner id and no idempotency
key. -/
structure SimpleTransaction where
  id : Nat
  userID : Nat
  amount : Float
  status : String
deriving Repr

/-- The table behind the plain GORM repository, with the
auto-incremented id counter. -/
structure SimpleStore where
  rows : List SimpleTransaction
  nextID : Nat
deriving Repr

/-- GormTransactionRepository.CreateTransaction, from the source: an
unconditional insert (db.Create), which assigns the next id and appends
the row.  No lookup of any kind precedes the insert. -/
def GormCreateTransaction (st : SimpleStore) (tx : SimpleTransaction) :
    SimpleStore × SimpleTransaction :=
  let assigned := { tx with id := st.nextID }
  ({ rows := st.rows ++ [assigned], nextID := st.nextID + 1 }, assigned)

/-- TransactionService.CreateTransaction, from the source: a direct
delegation to the repository insert. -/
def ServiceCreateTransaction (st : SimpleStore) (tx : SimpleTransaction) :
    SimpleStore × SimpleTransaction :=
  GormCreateTransaction st tx

/-! ## Shared concrete example values used by witnesses and counterexamples -/

/-- A completed 10000-minor-unit USD transaction owned by partner 5,
created and completed at time 0. -/
def exTransaction : Transaction :=
  { id := 1, partnerID := 5, amount := ⟨10000, "USD"⟩, idempotencyKey := "k",
    status := .completed, providerTransactionID := some "p", retryCount := 0,
    errorCode := none, errorMessage := none, createdAt := 0, updatedAt := 0,
    completedAt := some 0, failedAt := none, deletedAt := none }

/-- A store holding just the example transaction and no refunds. -/
def exStore : Store := { transactions := [exTransaction], refunds := [] }

/-- Collaborators for which every store call succeeds and the gateway
answers with provider refund id prid. -/
def exDeps : RefundDeps :=
  { newRefundID := 77, processRefund := .ok "prid",
    createRefundOk := true, updateRefundProcessingOk := true,
    updateRefundFailedOk := true, updateRefundCompletedOk := true,
    updateTransactionOk := true }

/-- A full-amount refund request by the owning partner. -/
def exInputFull : RefundInput :=
  { transactionID := 1, partnerID := 5, amount := 10000, currency := "USD", reason := "r" }

/-- A partial refund request by the owning partner. -/
def exInputPart : RefundInput :=
  { transactionID := 1, partnerID := 5, amount := 3000, currency := "USD", reason := "r" }

/-- A pending refund over the example transaction. -/
def exRefundPending : Refund :=
  { id := 9, transactionID := 1, amount := ⟨100, "USD"⟩, status := .pending,
    reason := "x", providerRefundID := "", errorCode := "", errorMessage := "",
    createdAt := 0, updatedAt := 0, processedAt := none, deletedAt := none }

/-- The example refund in processing status. -/
def exRefundProcessing : Refund := { exRefundPending with status := .processing }

/-- The example refund in completed status. -/
def exRefundCompleted : Refund := { exRefundPending with status := .completed }

/-- The example refund in failed status. -/
def exRefundFailed : Refund := { exRefundPending with status := .failed }

/-! ## C7: Money creation bounds and round-trip -/

/-- C7: NewMoney succeeds and round-trips amount and currency unchanged
exactly on amounts between 1 and 10000000 minor units with a currency on
the active allow-list, and fails for any amount outside the bounds or
any currency off the list. -/
theorem newMoney_bounds_roundtrip (a : Int) (c : String) :
    (1 ≤ a → a ≤ 10000000 → activeCurrencies.contains c = true →
      NewMoney a c = .ok ⟨a, c⟩)
    ∧ (a < 1 ∨ 10000000 < a ∨ activeCurrencies.contains c = false →
      (NewMoney a c).isOk = false) := by
  constructor
  · intro h1 h2 h3
    unfold NewMoney
    rw [if_neg (by omega), if_neg (by omega), if_neg (by simpa using h3)]
  · intro h
    unfold NewMoney
    rcases h with h | h | h
    · rw [if_pos h]; rfl
    · rw [if_neg (by omega), if_pos h]; rfl
    · by_cases h1 : a < 1
      · rw [if_pos h1]; rfl
      · by_cases h2 : a > 10000000
        · rw [if_neg h1, if_pos h2]; rfl
        · rw [if_neg h1, if_neg h2, if_pos (by simpa using h)]; rfl

/-- C7 witness: 10000 USD round-trips, while amount 0, amount 10000001
and currency XXX are all rejected. -/
theorem newMoney_bounds_roundtrip_witness :
    NewMoney 10000 "USD" = .ok ⟨10000, "USD"⟩
    ∧ (NewMoney 0 "USD").isOk = false
    ∧ (NewMoney 10000001 "USD").isOk = false
    ∧ (NewMoney 10000 "XXX").isOk = false := by
  refine ⟨?_, ?_, ?_, ?_⟩
  · exact (newMoney_bounds_roundtrip 10000 "USD").1 (by decide) (by decide) (by decide)
  · exact (newMoney_bounds_roundtrip 0 "USD").2 (Or.inl (by decide))
  · exact (newMoney_bounds_roundtrip 10000001 "USD").2 (Or.inr (Or.inl (by decide)))
  · exact (newMoney_bounds_roundtrip 10000 "XXX").2 (Or.inr (Or.inr (by decide)))

/-! ## C8: Money arithmetic algebra -/

/-- C8: addition of Money is commutative and associative on
same-currency operands and is an error, never a value, on mixed-currency
operands; subtraction of a larger same-currency amount fails with the
negative-result error and never returns a value. -/
theorem money_add_subtract_algebra (a b c : Money) :
    (a.currency = b.currency → a.add b = b.add a)
    ∧ (a.currency = b.currency → b.currency = c.currency →
        (a.add b).bind (fun x => x.add c) = (b.add c).bind (fun y => a.add y))
    ∧ (a.currency ≠ b.currency → a.add b = .error .currencyMismatch)
    ∧ (a.currency = b.currency → a.amount < b.amount →
        (a.subtract b = .error .negativeResult ∧ (a.subtract b).isOk = false)) := by
  refine ⟨?_, ?_, ?_, ?_⟩
  · intro h
    simp only [Money.add, h, ne_eq, not_true_eq_false, if_false, ite_false]
    simp [Int.add_comm]
  · intro hab hbc
    simp [Money.add, hab, hbc, Except.bind, Int.add_assoc]
  · intro h
    simp [Money.add, h]
  · intro hcur hlt
    have : a.subtract b = .error .negativeResult := by
      simp only [Money.subtract]
      rw [if_neg (by simp [hcur]), if_pos (by omega)]
    exact ⟨this, by rw [this]; rfl⟩

/-- C8 witness: 100 USD plus 50 USD commutes, associates with another
25 USD, 100 USD plus 50 EUR is the mismatch error, and 50 USD minus
100 USD is the negative-result error. -/
theorem money_add_subtract_algebra_witness :
    (Money.add ⟨100, "USD"⟩ ⟨50, "USD"⟩ = Money.add ⟨50, "USD"⟩ ⟨100, "USD"⟩)
    ∧ ((Money.add ⟨100, "USD"⟩ ⟨50, "USD"⟩).bind (fun x => x.add ⟨25, "USD"⟩)
        = (Money.add ⟨50, "USD"⟩ ⟨25, "USD"⟩).bind (fun y => Money.add ⟨100, "USD"⟩ y))
    ∧ (Money.add ⟨100, "USD"⟩ ⟨50, "EUR"⟩ = .error .currencyMismatch)
    ∧ (Money.subtract ⟨50, "USD"⟩ ⟨100, "USD"⟩ = .error .negativeResult) := by
  refine ⟨?_, ?_, ?_, ?_⟩
  · exact (money_add_subtract_algebra ⟨100, "USD"⟩ ⟨50, "USD"⟩ ⟨25, "USD"⟩).1 rfl
  · exact (money_add_subtract_algebra ⟨100, "USD"⟩ ⟨50, "USD"⟩ ⟨25, "USD"⟩).2.1 rfl rfl
  · exact (money_add_subtract_algebra ⟨100, "USD"⟩ ⟨50, "EUR"⟩ ⟨25, "USD"⟩).2.2.1 (by decide)
  · exact ((money_add_subtract_algebra ⟨50, "USD"⟩ ⟨100, "USD"⟩ ⟨25, "USD"⟩).2.2.2 rfl (by decide)).1

/-! ## C9: the refund markAsFailed guard -/

/-- C9 counterexample: a refund in pending status, which is not
processing, is accepted by markAsFailed, so the operation does not
return an invalid-transition error from every state other than
processing. -/
theorem refund_markAsFailed_allows_pending :
    exRefundPending.status = RefundStatus.pending
    ∧ RefundStatus.pending ≠ RefundStatus.processing
    ∧ (exRefundPending.markAsFailed "GW" "boom" 5).isOk = true := by
  refine ⟨rfl, by decide, rfl⟩

/-- C9 amended: markAsFailed succeeds exactly when the refund is pending
or processing, and returns an invalid-transition error from completed or
failed; on success the refund is failed with the given code and
message. -/
theorem refund_markAsFailed_characterization (r : Refund) (code msg : String) (now : Int) :
    ((r.markAsFailed code msg now).isOk = true ↔
      (r.status = .pending ∨ r.status = .processing))
    ∧ (∀ r', r.markAsFailed code msg now = .ok r' →
        r'.status = .failed ∧ r'.errorCode = code ∧ r'.errorMessage = msg) := by
  constructor
  · unfold Refund.markAsFailed
    by_cases h : r.status ≠ .processing ∧ r.status ≠ .pending
    · rw [if_pos h]
      simp only [Except.isOk, Except.toBool]
      constructor
      · intro hfalse; cases hfalse
      · intro habs; rcases habs with h1 | h1 <;> simp [h1] at h
    · rw [if_neg h]
      simp only [Except.isOk, Except.toBool, true_iff]
      rcases not_and_or.mp h with h1 | h1
      · exact Or.inr (not_not.mp h1)
      · exact Or.inl (not_not.mp h1)
  · intro r' h
    unfold Refund.markAsFailed at h
    split at h
    · cases h
    · cases h; exact ⟨rfl, rfl, rfl⟩

/-- C9 witness: on the concrete processing refund, markAsFailed succeeds
and records status failed with the given code and message. -/
theorem refund_markAsFailed_characterization_witness :
    (exRefundProcessing.markAsFailed "GW" "boom" 5).isOk = true
    ∧ ∀ r', exRefundProcessing.markAsFailed "GW" "boom" 5 = .ok r' →
        r'.status = .failed ∧ r'.errorCode = "GW" ∧ r'.errorMessage = "boom" := by
  constructor
  · exact (refund_markAsFailed_characterization exRefundProcessing "GW" "boom" 5).1.mpr
      (Or.inr (by decide))
  · exact (refund_markAsFailed_characterization exRefundProcessing "GW" "boom" 5).2

/-! ## C10: refund initial and terminal states -/

/-- C10: every refund built by NewRefund starts pending; completed and
failed are terminal, in that markAsProcessing, markAsCompleted and
markAsFailed all reject a refund in either state, leaving it unchanged;
and a successful markAsCompleted sets the processed timestamp and clears
the error code and message. -/
theorem refund_terminal_states_and_completion
    (newID tid : Nat) (m : Money) (reason : String) (now now2 : Int)
    (r : Refund) (pid code msg : String) :
    (∀ r0, NewRefund newID tid m reason now = .ok r0 → r0.status = .pending)
    ∧ (r.status = .completed ∨ r.status = .failed →
        (r.markAsProcessing now2).isOk = false
        ∧ (r.markAsCompleted pid now2).isOk = false
        ∧ (r.markAsFailed code msg now2).isOk = false)
    ∧ (∀ r', r.markAsCompleted pid now2 = .ok r' →
        r'.status = .completed ∧ r'.processedAt = some now2
        ∧ r'.errorCode = "" ∧ r'.errorMessage = "") := by
  refine ⟨?_, ?_, ?_⟩
  · intro r0 h
    unfold NewRefund at h
    split at h
    · cases h
    · split at h
      · cases h
      · split at h
        · cases h
        · cases h; rfl
  · intro hstat
    have h1 : r.status ≠ .pending := by rcases hstat with h | h <;> simp [h]
    have h2 : r.status ≠ .processing := by rcases hstat with h | h <;> simp [h]
    refine ⟨?_, ?_, ?_⟩
    · unfold Refund.markAsProcessing
      rw [if_pos h1]; rfl
    · unfold Refund.markAsCompleted
      rw [if_pos h2]; rfl
    · unfold Refund.markAsFailed
      rw [if_pos ⟨h2, h1⟩]; rfl
  · intro r' h
    unfold Refund.markAsCompleted at h
    split at h
    · cases h
    · cases h; exact ⟨rfl, rfl, rfl, rfl⟩

/-- C10 witness: a freshly constructed refund is pending; the concrete
completed and failed refunds reject every transition; completing the
concrete processing refund stamps the processed time and clears the
error fields. -/
theorem refund_terminal_states_and_completion_witness :
    (∀ r0, NewRefund 9 1 ⟨100, "USD"⟩ "x" 0 = .ok r0 → r0.status = .pending)
    ∧ ((exRefundCompleted.markAsProcessing 5).isOk = false
        ∧ (exRefundCompleted.markAsCompleted "p" 5).isOk = false
        ∧ (exRefundCompleted.markAsFailed "c" "m" 5).isOk = false)
    ∧ ((exRefundFailed.markAsProcessing 5).isOk = false
        ∧ (exRefundFailed.markAsCompleted "p" 5).isOk = false
        ∧ (exRefundFailed.markAsFailed "c" "m" 5).isOk = false)
    ∧ (∀ r', exRefundProcessing.markAsCompleted "p" 5 = .ok r' →
        r'.status = .completed ∧ r'.processedAt = some 5
        ∧ r'.errorCode = "" ∧ r'.errorMessage = "") := by
  refine ⟨?_, ?_, ?_, ?_⟩
  · exact (refund_terminal_states_and_completion 9 1 ⟨100, "USD"⟩ "x" 0 5
      exRefundPending "p" "c" "m").1
  · exact (refund_terminal_states_and_completion 9 1 ⟨100, "USD"⟩ "x" 0 5
      exRefundCompleted "p" "c" "m").2.1 (Or.inl (by decide))
  · exact (refund_terminal_states_and_completion 9 1 ⟨100, "USD"⟩ "x" 0 5
      exRefundFailed "p" "c" "m").2.1 (Or.inr (by decide))
  · exact (refund_terminal_states_and_completion 9 1 ⟨100, "USD"⟩ "x" 0 5
      exRefundProcessing "p" "c" "m").2.2

/-! ## C3: the create-transaction path of the tree inserts unconditionally -/

/-- C3: the create-transaction operation of the tree
(TransactionService.CreateTransaction delegating to
GormTransactionRepository.CreateTransaction) performs an unconditional
insert: submitting the same request body twice persists two distinct
transactions, with no lookup of any partner or idempotency key, which
the transaction record of this subsystem does not even carry.  This
contradicts the idempotency the repository documents for creation. -/
theorem simple_createTransaction_always_inserts (st : SimpleStore) (tx : SimpleTransaction) :
    ((ServiceCreateTransaction (ServiceCreateTransaction st tx).1 tx).1.rows.length
      = st.rows.length + 2)
    ∧ (ServiceCreateTransaction st tx).2.id
        ≠ (ServiceCreateTransaction (ServiceCreateTransaction st tx).1 tx).2.id := by
  constructor
  · simp [ServiceCreateTransaction, GormCreateTransaction]
  · simp [ServiceCreateTransaction, GormCreateTransaction]

/-! ## C5: what a payment gateway failure leaves behind -/

/-- The example transaction reset to pending, awaiting processing. -/
def exPendingTransaction : Transaction := { exTransaction with status := .pending }

/-- A store holding just the pending example transaction. -/
def exPendingStore : Store := { transactions := [exPendingTransaction], refunds := [] }

/-- Payment collaborators whose gateway declines while every store call
succeeds. -/
def exDecliningPaymentDeps : PaymentDeps :=
  { processPayment := .error "card declined", updateProcessingOk := true,
    updateFailedOk := true, updateCompletedOk := true }

/-- Payment collaborators whose gateway declines and whose store update
after the failure transition also fails. -/
def exDecliningPaymentDepsUpdateFail : PaymentDeps :=
  { exDecliningPaymentDeps with updateFailedOk := false }

/-- C5 counterexample: when the gateway fails and the store update that
should persist the failed transition also fails, the source discards
that update error, returns the gateway error, and the persisted
transaction record remains in processing, contradicting the claim that
the transaction is never left in processing after the operation
returns. -/
theorem processPayment_store_failure_leaves_processing :
    ((ProcessPaymentExecute 3 exPendingStore exDecliningPaymentDepsUpdateFail 1).1).isOk = false
    ∧ (ProcessPaymentExecute 3 exPendingStore exDecliningPaymentDepsUpdateFail 1).2.transactions.map
        (fun t => t.status) = [TransactionStatus.processing]
    ∧ TransactionStatus.processing ≠ TransactionStatus.failed := by
  exact ⟨rfl, rfl, by decide⟩

/-- C5 amended: when the payment collaborator fails while the
transaction is in processing, the gateway error is propagated to the
caller in every case; the transaction is persisted in the terminal
failed state with code PAYMENT_FAILED and the gateway message when the
subsequent store update succeeds, but the source discards that update's
error, so when it fails the persisted transaction remains in
processing. -/
theorem processPayment_gateway_failure_characterization
    (now : Int) (st : Store) (deps : PaymentDeps) (tid : Nat)
    (t : Transaction) (gatewayErr : String)
    (hfind : st.getTransactionByID tid = some t)
    (hstate : t.status = .pending ∨ t.status = .failed)
    (hupd1 : deps.updateProcessingOk = true)
    (hgw : deps.processPayment = .error gatewayErr) :
    (deps.updateFailedOk = true →
      (ProcessPaymentExecute now st deps tid).1 = .error (.dependency gatewayErr)
      ∧ ∀ x ∈ (ProcessPaymentExecute now st deps tid).2.transactions,
          x.id = t.id →
            x.status = .failed
            ∧ x.errorCode = some "PAYMENT_FAILED"
            ∧ x.errorMessage = some gatewayErr)
    ∧
    (deps.updateFailedOk = false →
      (ProcessPaymentExecute now st deps tid).1 = .error (.dependency gatewayErr)
      ∧ ∀ x ∈ (ProcessPaymentExecute now st deps tid).2.transactions,
          x.id = t.id → x.status = .processing) := by
  have hguard : (t.isPending || t.isFailed) = true := by
    rcases hstate with h | h <;>
      simp [Transaction.isPending, Transaction.isFailed, h]
  have hmark : t.markAsProcessing now =
      .ok { t with
            status := .processing,
            updatedAt := now } := by
    unfold Transaction.markAsProcessing
    rw [if_pos hstate]
  have hfail : Transaction.markAsFailed
      { t with
        status := .processing,
        updatedAt := now }
      "PAYMENT_FAILED" gatewayErr now =
      .ok { t with
            status := .failed,
            errorCode := some "PAYMENT_FAILED",
            errorMessage := some gatewayErr,
            failedAt := some now,
            updatedAt := now } := by
    unfold Transaction.markAsFailed
    rw [if_pos rfl]
  have hred : ProcessPaymentExecute now st deps tid =
      (.error (.dependency gatewayErr),
        if deps.updateFailedOk then
          Store.updateTransaction
            (st.updateTransaction { t with
                                    status := .processing,
                                    updatedAt := now })
            { t with
              status := .failed,
              errorCode := some "PAYMENT_FAILED",
              errorMessage := some gatewayErr,
              failedAt := some now,
              updatedAt := now }
        else
          st.updateTransaction { t with
                                 status := .processing,
                                 updatedAt := now }) := by
    simp only [ProcessPaymentExecute, hfind, hmark, hgw, hfail]
    simp [hguard, hupd1]
  constructor
  · intro hupdf
    rw [hupdf] at hred
    simp only [eq_self_iff_true, if_true, ite_true] at hred
    refine ⟨by rw [hred], ?_⟩
    intro x hx hid
    rw [hred] at hx
    simp only [Store.updateTransaction, List.mem_map] at hx
    obtain ⟨y, hy, rfl⟩ := hx
    by_cases hcase : y.id = t.id
    · rw [if_pos hcase]
      exact ⟨rfl, rfl, rfl⟩
    · rw [if_neg hcase] at hid ⊢
      exact absurd hid hcase
  · intro hupdf
    rw [hupdf] at hred
    simp only [Bool.false_eq_true, if_false, ite_false] at hred
    refine ⟨by rw [hred], ?_⟩
    intro x hx hid
    rw [hred] at hx
    simp only [Store.updateTransaction, List.mem_map] at hx
    obtain ⟨y, hy, rfl⟩ := hx
    by_cases hcase : y.id = t.id
    · rw [if_pos hcase]
    · rw [if_neg hcase] at hid ⊢
      exact absurd hid hcase

/-- C5 witness: processing the pending example transaction against the
declining gateway persists the transaction failed with the gateway
message when the store update succeeds, and leaves it in processing when
that update fails; the gateway error is returned in both runs. -/
theorem processPayment_gateway_failure_characterization_witness :
    ((ProcessPaymentExecute 3 exPendingStore exDecliningPaymentDeps 1).1
        = .error (.dependency "card declined")
      ∧ ∀ x ∈ (ProcessPaymentExecute 3 exPendingStore exDecliningPaymentDeps 1).2.transactions,
          x.id = exPendingTransaction.id →
            x.status = .failed
            ∧ x.errorCode = some "PAYMENT_FAILED"
            ∧ x.errorMessage = some "card declined")
    ∧ ((ProcessPaymentExecute 3 exPendingStore exDecliningPaymentDepsUpdateFail 1).1
        = .error (.dependency "card declined")
      ∧ ∀ x ∈ (ProcessPaymentExecute 3 exPendingStore exDecliningPaymentDepsUpdateFail 1).2.transactions,
          x.id = exPendingTransaction.id → x.status = .processing) := by
  constructor
  · exact (processPayment_gateway_failure_characterization 3 exPendingStore
      exDecliningPaymentDeps 1 exPendingTransaction "card declined"
      rfl (Or.inl rfl) rfl rfl).1 rfl
  · exact (processPayment_gateway_failure_characterization 3 exPendingStore
      exDecliningPaymentDepsUpdateFail 1 exPendingTransaction "card declined"
      rfl (Or.inl rfl) rfl rfl).2 rfl

/-! ## Shared reduction machinery for the refund use case -/

/-- The refund record NewRefund builds when its validations pass; a
statement-level abbreviation for the reduction lemmas below. -/
def freshRefund (newID tid : Nat) (m : Money) (reason : String) (now : Int) : Refund :=
  { id := newID, transactionID := tid, amount := m, status := .pending,
    reason := reason, providerRefundID := "", errorCode := "", errorMessage := "",
    createdAt := now, updatedAt := now, processedAt := none, deletedAt := none }

/-- The record a successful markAsProcessing produces. -/
def processingOf (r : Refund) (now : Int) : Refund :=
  { r with status := .processing, updatedAt := now }

/-- The record a successful markAsCompleted produces. -/
def completedOf (r : Refund) (providerRefundID : String) (now : Int) : Refund :=
  { r with
    status := .completed,
    providerRefundID := providerRefundID,
    processedAt := some now,
    updatedAt := now,
    errorCode := "",
    errorMessage := "" }

/-- The record a successful markAsFailed produces. -/
def failedOf (r : Refund) (code msg : String) (now : Int) : Refund :=
  { r with
    status := .failed,
    errorCode := code,
    errorMessage := msg,
    updatedAt := now }

/-- Reduction of the refund use case once every validation guard has
passed: the outcome depends only on the store flags and the gateway
answer, and each branch is the explicit store state the source leaves
behind. -/
theorem refundExecute_after_guards
    (now : Int) (st : Store) (deps : RefundDeps) (input : RefundInput)
    (t : Transaction)
    (hfind : st.getTransactionByID input.transactionID = some t)
    (hpartner : t.partnerID = input.partnerID)
    (hrefundable : t.isRefundable now = true)
    (hwindow : ¬ t.createdAt < now - ninetyDaysSeconds)
    (hamin : 1 ≤ input.amount) (hamax : input.amount ≤ 10000000)
    (hcur : activeCurrencies.contains input.currency = true)
    (hle : ¬ t.amount.amount < input.amount)
    (hsum : ¬ st.sumCompletedRefunds t.id + input.amount > t.amount.amount)
    (hcurmatch : input.currency = t.amount.currency)
    (hreason : ¬ input.reason = "") (htid : ¬ t.id = 0) :
    RefundExecute now st deps input =
      if ¬ deps.createRefundOk then
        (.error (.storeFailure "failed to create refund"), st)
      else if ¬ deps.updateRefundProcessingOk then
        (.error (.storeFailure "failed to update refund"),
          st.insertRefund (freshRefund deps.newRefundID t.id ⟨input.amount, input.currency⟩ input.reason now))
      else
        match deps.processRefund with
        | .error gatewayErr =>
          (.error (.dependency gatewayErr),
            if deps.updateRefundFailedOk then
              ((st.insertRefund (freshRefund deps.newRefundID t.id ⟨input.amount, input.currency⟩ input.reason now)).updateRefund
                  (processingOf (freshRefund deps.newRefundID t.id ⟨input.amount, input.currency⟩ input.reason now) now)).updateRefund
                (failedOf (processingOf (freshRefund deps.newRefundID t.id ⟨input.amount, input.currency⟩ input.reason now) now)
                  "REFUND_FAILED" gatewayErr now)
            else
              (st.insertRefund (freshRefund deps.newRefundID t.id ⟨input.amount, input.currency⟩ input.reason now)).updateRefund
                (processingOf (freshRefund deps.newRefundID t.id ⟨input.amount, input.currency⟩ input.reason now) now))
        | .ok providerRefundID =>
          if ¬ deps.updateRefundCompletedOk then
            (.error (.storeFailure "failed to update refund"),
              (st.insertRefund (freshRefund deps.newRefundID t.id ⟨input.amount, input.currency⟩ input.reason now)).updateRefund
                (processingOf (freshRefund deps.newRefundID t.id ⟨input.amount, input.currency⟩ input.reason now) now))
          else if ¬ deps.updateTransactionOk then
            (.error (.storeFailure "failed to update transaction"),
              ((st.insertRefund (freshRefund deps.newRefundID t.id ⟨input.amount, input.currency⟩ input.reason now)).updateRefund
                  (processingOf (freshRefund deps.newRefundID t.id ⟨input.amount, input.currency⟩ input.reason now) now)).updateRefund
                (completedOf (processingOf (freshRefund deps.newRefundID t.id ⟨input.amount, input.currency⟩ input.reason now) now)
                  providerRefundID now))
          else
            (.ok (completedOf (processingOf (freshRefund deps.newRefundID t.id ⟨input.amount, input.currency⟩ input.reason now) now)
                providerRefundID now),
              (((st.insertRefund (freshRefund deps.newRefundID t.id ⟨input.amount, input.currency⟩ input.reason now)).updateRefund
                    (processingOf (freshRefund deps.newRefundID t.id ⟨input.amount, input.currency⟩ input.reason now) now)).updateRefund
                  (completedOf (processingOf (freshRefund deps.newRefundID t.id ⟨input.amount, input.currency⟩ input.reason now) now)
                    providerRefundID now)).updateTransaction
                { t with
                  status := if st.sumCompletedRefunds t.id + input.amount = t.amount.amount
                            then .refunded else .partiallyRefunded,
                  updatedAt := now }) := by
  have hstatus : t.status = .completed ∨ t.status = .partiallyRefunded := by
    by_contra hc
    simp [Transaction.isRefundable, hc] at hrefundable
  have hm : NewMoney input.amount input.currency = .ok ⟨input.amount, input.currency⟩ := by
    unfold NewMoney
    rw [if_neg (by omega), if_neg (by omega), if_neg (by simpa using hcur)]
  have hr : NewRefund deps.newRefundID t.id ⟨input.amount, input.currency⟩ input.reason now
      = .ok (freshRefund deps.newRefundID t.id ⟨input.amount, input.currency⟩ input.reason now) := by
    unfold NewRefund freshRefund
    rw [if_neg htid, if_neg hreason, if_neg (by simp [currencyIsValid]; simpa using hcur)]
  have hgt : Money.isGreaterThan ⟨input.amount, input.currency⟩ t.amount = false := by
    simp only [Money.isGreaterThan, decide_eq_false_iff_not]
    omega
  have hproc : (freshRefund deps.newRefundID t.id ⟨input.amount, input.currency⟩ input.reason now).markAsProcessing now
      = .ok (processingOf (freshRefund deps.newRefundID t.id ⟨input.amount, input.currency⟩ input.reason now) now) := by
    unfold Refund.markAsProcessing processingOf freshRefund
    rw [if_neg (by simp)]
  have hcompl : ∀ pid, (processingOf (freshRefund deps.newRefundID t.id ⟨input.amount, input.currency⟩ input.reason now) now).markAsCompleted pid now
      = .ok (completedOf (processingOf (freshRefund deps.newRefundID t.id ⟨input.amount, input.currency⟩ input.reason now) now) pid now) := by
    intro pid
    unfold Refund.markAsCompleted completedOf processingOf freshRefund
    rw [if_neg (by simp)]
  have hfailg : ∀ g, (processingOf (freshRefund deps.newRefundID t.id ⟨input.amount, input.currency⟩ input.reason now) now).markAsFailed "REFUND_FAILED" g now
      = .ok (failedOf (processingOf (freshRefund deps.newRefundID t.id ⟨input.amount, input.currency⟩ input.reason now) now) "REFUND_FAILED" g now) := by
    intro g
    unfold Refund.markAsFailed failedOf processingOf freshRefund
    rw [if_neg (by simp)]
  have hstatusEq :
      (if (! decide (st.sumCompletedRefunds t.id + input.amount ≥ t.amount.amount)) = true
        then TransactionStatus.partiallyRefunded else TransactionStatus.refunded)
      = (if st.sumCompletedRefunds t.id + input.amount = t.amount.amount
        then TransactionStatus.refunded else TransactionStatus.partiallyRefunded) := by
    by_cases h : st.sumCompletedRefunds t.id + input.amount = t.amount.amount
    · rw [if_pos h]
      rw [if_neg (by simp; omega)]
    · rw [if_neg h]
      rw [if_pos (by simp; omega)]
  have hmarkref : t.markAsRefunded
      (! decide (st.sumCompletedRefunds t.id + input.amount ≥ t.amount.amount)) now
      = .ok { t with
              status := if st.sumCompletedRefunds t.id + input.amount = t.amount.amount
                        then .refunded else .partiallyRefunded,
              updatedAt := now } := by
    unfold Transaction.markAsRefunded
    rw [if_pos hstatus]
    rw [hstatusEq]
  simp only [RefundExecute, hfind]
  rw [if_neg (by simp [hpartner])]
  rw [if_neg (by simp [hrefundable])]
  rw [if_neg hwindow]
  simp only [hm, hgt, Bool.false_eq_true, if_false]
  rw [if_neg hsum]
  rw [if_neg (by simp [hcurmatch])]
  simp only [hr, hproc, hcompl, hfailg, hmarkref]

/-! ## C1: the cumulative refund invariant -/

/-- C1 counterexample: on a transaction already in refunded status (the
example transaction after a full refund), a further refund request of
positive amount fails with the refund-not-allowed error, not with the
refund-amount-exceeded error the claim names: the refundability guard of
step 3 fires before the amount check of step 7 is ever reached. -/
theorem refund_after_full_refund_not_allowed :
    (RefundExecute 30
        { transactions := [{ exTransaction with status := .refunded }],
          refunds := [{ exRefundCompleted with amount := ⟨10000, "USD"⟩ }] }
        exDeps exInputPart).1 = .error .refundNotAllowed
    ∧ DomainErr.refundNotAllowed ≠ DomainErr.refundAmountExceeded := by
  exact ⟨rfl, by decide⟩

/-- C1 amended: with the transaction loaded and owned by the caller,
refundable and inside the window, and the requested amount a valid
money amount, the use case fails with the amount-exceeded error whenever
the completed-refund total plus the request exceeds the transaction
amount; when the total stays within the amount and the remaining steps
succeed, the refund completes and the transaction is persisted as
refunded when the cumulative total exactly reaches the amount and as
partially refunded otherwise; and on a transaction already refunded any
further request fails with the refund-not-allowed error. -/
theorem refundExecute_refund_total_invariant
    (now : Int) (st : Store) (deps : RefundDeps) (input : RefundInput)
    (t : Transaction) (pid : String)
    (hfind : st.getTransactionByID input.transactionID = some t)
    (hpartner : t.partnerID = input.partnerID) :
    (t.isRefundable now = true →
      ¬ t.createdAt < now - ninetyDaysSeconds →
      1 ≤ input.amount → input.amount ≤ 10000000 →
      activeCurrencies.contains input.currency = true →
      st.sumCompletedRefunds t.id + input.amount > t.amount.amount →
      (RefundExecute now st deps input).1 = .error .refundAmountExceeded)
    ∧
    (t.isRefundable now = true →
      ¬ t.createdAt < now - ninetyDaysSeconds →
      1 ≤ input.amount → input.amount ≤ 10000000 →
      activeCurrencies.contains input.currency = true →
      0 ≤ st.sumCompletedRefunds t.id →
      st.sumCompletedRefunds t.id + input.amount ≤ t.amount.amount →
      input.currency = t.amount.currency →
      ¬ input.reason = "" → ¬ t.id = 0 →
      deps.createRefundOk = true →
      deps.updateRefundProcessingOk = true →
      deps.updateRefundCompletedOk = true →
      deps.updateTransactionOk = true →
      deps.processRefund = .ok pid →
      (∃ r, (RefundExecute now st deps input).1 = .ok r ∧ r.status = .completed)
      ∧ ∀ x ∈ (RefundExecute now st deps input).2.transactions, x.id = t.id →
          x.status = (if st.sumCompletedRefunds t.id + input.amount = t.amount.amount
                      then TransactionStatus.refunded
                      else TransactionStatus.partiallyRefunded))
    ∧
    (t.status = .refunded →
      (RefundExecute now st deps input).1 = .error .refundNotAllowed) := by
  refine ⟨?_, ?_, ?_⟩
  · intro hrefundable hwindow hamin hamax hcur hexceed
    have hm : NewMoney input.amount input.currency = .ok ⟨input.amount, input.currency⟩ := by
      unfold NewMoney
      rw [if_neg (by omega), if_neg (by omega), if_neg (by simpa using hcur)]
    simp only [RefundExecute, hfind]
    rw [if_neg (by simp [hpartner])]
    rw [if_neg (by simp [hrefundable])]
    rw [if_neg hwindow]
    simp only [hm]
    by_cases hgt : t.amount.amount < input.amount
    · rw [if_pos (by simp only [Money.isGreaterThan, decide_eq_true_eq]; omega)]
    · rw [if_neg (by simp only [Money.isGreaterThan, decide_eq_true_eq]; omega)]
      rw [if_pos hexceed]
  · intro hrefundable hwindow hamin hamax hcur hsum0 hsumle hcurmatch hreason htid
      hcreate hupd1 hupd2 hupd3 hgw
    have hle : ¬ t.amount.amount < input.amount := by omega
    have hsum : ¬ st.sumCompletedRefunds t.id + input.amount > t.amount.amount := by omega
    have hred := refundExecute_after_guards now st deps input t hfind hpartner
      hrefundable hwindow hamin hamax hcur hle hsum hcurmatch hreason htid
    rw [hcreate, hupd1, hupd2, hupd3, hgw] at hred
    simp only [eq_self_iff_true, not_true, if_false, ite_false] at hred
    constructor
    · exact ⟨_, by rw [hred], rfl⟩
    · intro x hx hid
      rw [hred] at hx
      simp only [Store.updateTransaction, Store.updateRefund, Store.insertRefund,
        List.mem_map] at hx
      obtain ⟨y, hy, rfl⟩ := hx
      by_cases hcase : y.id = t.id
      · rw [if_pos hcase]
      · rw [if_neg hcase] at hid ⊢
        exact absurd hid hcase
  · intro hstat
    simp only [RefundExecute, hfind]
    rw [if_neg (by simp [hpartner])]
    rw [if_pos (by simp [Transaction.isRefundable, hstat])]

/-- C1 witness: refunding the full 10000 on the example transaction
succeeds with a completed refund and persists the transaction as
refunded. -/
theorem refundExecute_refund_total_invariant_witness :
    (∃ r, (RefundExecute 10 exStore exDeps exInputFull).1 = .ok r ∧ r.status = .completed)
    ∧ ∀ x ∈ (RefundExecute 10 exStore exDeps exInputFull).2.transactions,
        x.id = exTransaction.id →
          x.status = (if exStore.sumCompletedRefunds exTransaction.id + exInputFull.amount
                        = exTransaction.amount.amount
                      then TransactionStatus.refunded
                      else TransactionStatus.partiallyRefunded) := by
  exact (refundExecute_refund_total_invariant 10 exStore exDeps exInputFull
      exTransaction "prid" rfl rfl).2.1
    rfl (by decide) (by decide) (by decide) rfl (by decide) (by decide) rfl
    (by decide) (by decide) rfl rfl rfl rfl rfl

/-! ## C4: the 90-day window check -/

/-- Money creation never produces the window-expired error. -/
theorem newMoney_ne_window_error (a : Int) (c : String) :
    NewMoney a c ≠ .error .refundWindowExpired := by
  unfold NewMoney
  repeat' split
  all_goals simp

/-- Refund construction never produces the window-expired error. -/
theorem newRefund_ne_window_error (newID tid : Nat) (m : Money) (reason : String) (now : Int) :
    NewRefund newID tid m reason now ≠ .error .refundWindowExpired := by
  unfold NewRefund
  repeat' split
  all_goals simp

/-- The refund processing transition never produces the window-expired
error. -/
theorem refund_markAsProcessing_ne_window_error (r : Refund) (now : Int) :
    r.markAsProcessing now ≠ .error .refundWindowExpired := by
  unfold Refund.markAsProcessing
  repeat' split
  all_goals simp

/-- The refund completion transition never produces the window-expired
error. -/
theorem refund_markAsCompleted_ne_window_error (r : Refund) (pid : String) (now : Int) :
    r.markAsCompleted pid now ≠ .error .refundWindowExpired := by
  unfold Refund.markAsCompleted
  repeat' split
  all_goals simp

/-- The transaction refunded transition never produces the window-expired
error. -/
theorem transaction_markAsRefunded_ne_window_error (t : Transaction) (b : Bool) (now : Int) :
    t.markAsRefunded b now ≠ .error .refundWindowExpired := by
  unfold Transaction.markAsRefunded
  repeat' split
  all_goals simp

/-- C4 counterexample: a transaction completed at the current instant,
hence with its completion timestamp well inside the 90-day window, but
created 90 days and one second ago, is rejected with the window-expired
error: the source measures the window from the creation timestamp, not
from the completion timestamp the claim names. -/
theorem refundWindowExpired_despite_recent_completion :
    (RefundExecute 0
        { transactions := [{ exTransaction with createdAt := -(ninetyDaysSeconds + 1) }],
          refunds := [] }
        exDeps exInputPart).1 = .error .refundWindowExpired
    ∧ ({ exTransaction with createdAt := -(ninetyDaysSeconds + 1) } : Transaction).completedAt
        = some 0
    ∧ ((0 : Int) - 0 ≤ ninetyDaysSeconds) := by
  exact ⟨rfl, rfl, by decide⟩

/-- C4 amended: for a transaction that is loaded, owned by the caller
and refundable (completed or partially refunded with completion inside
the window), the use case fails with the window-expired error exactly
when the transaction's creation timestamp lies strictly more than
90 days before the current time; the boundary is exact, so a creation
timestamp of exactly 90 days ago still passes the window check while
90 days and one second ago fails it. -/
theorem refundExecute_window_check_characterization
    (now : Int) (st : Store) (deps : RefundDeps) (input : RefundInput)
    (t : Transaction)
    (hfind : st.getTransactionByID input.transactionID = some t)
    (hpartner : t.partnerID = input.partnerID)
    (hrefundable : t.isRefundable now = true) :
    (RefundExecute now st deps input).1 = .error .refundWindowExpired ↔
      t.createdAt < now - ninetyDaysSeconds := by
  constructor
  · intro h
    by_contra hwin
    simp only [RefundExecute, hfind] at h
    rw [if_neg (by simp [hpartner])] at h
    rw [if_neg (by simp [hrefundable])] at h
    rw [if_neg hwin] at h
    repeat' split at h <;> try (simp at h)
    all_goals simp_all [newMoney_ne_window_error, newRefund_ne_window_error,
      refund_markAsProcessing_ne_window_error, refund_markAsCompleted_ne_window_error,
      transaction_markAsRefunded_ne_window_error]
  · intro hwin
    simp only [RefundExecute, hfind]
    rw [if_neg (by simp [hpartner])]
    rw [if_neg (by simp [hrefundable])]
    rw [if_pos hwin]

/-- C4 witness: on the boundary, a transaction created exactly 90 days
ago is not rejected by the window check, while the counterexample
transaction created one second earlier is; both via the
characterization. -/
theorem refundExecute_window_check_characterization_witness :
    ¬ (RefundExecute 0
        { transactions := [{ exTransaction with createdAt := -ninetyDaysSeconds }],
          refunds := [] }
        exDeps exInputPart).1 = .error .refundWindowExpired
    ∧ (RefundExecute 0
        { transactions := [{ exTransaction with createdAt := -(ninetyDaysSeconds + 1) }],
          refunds := [] }
        exDeps exInputPart).1 = .error .refundWindowExpired := by
  constructor
  · intro h
    have := (refundExecute_window_check_characterization 0
      { transactions := [{ exTransaction with createdAt := -ninetyDaysSeconds }],
        refunds := [] }
      exDeps exInputPart { exTransaction with createdAt := -ninetyDaysSeconds }
      rfl rfl rfl).mp h
    have h2 : ({ exTransaction with createdAt := -ninetyDaysSeconds } : Transaction).createdAt
        = -ninetyDaysSeconds := rfl
    rw [h2] at this
    omega
  · exact (refundExecute_window_check_characterization 0
      { transactions := [{ exTransaction with createdAt := -(ninetyDaysSeconds + 1) }],
        refunds := [] }
      exDeps exInputPart { exTransaction with createdAt := -(ninetyDaysSeconds + 1) }
      rfl rfl rfl).mpr (by decide)

/-! ## C6: what a failure after refund creation leaves behind -/

/-- Collaborators whose first refund update fails after a successful
insert. -/
def exDepsUpdateFail : RefundDeps := { exDeps with updateRefundProcessingOk := false }

/-- C6 counterexample: when the store update following the
mark-as-processing step fails, the use case returns the store error and
the persisted refund record is left in pending status, not in the
terminal failed state the claim requires of every post-creation
failure. -/
theorem refund_store_failure_leaves_pending :
    ((RefundExecute 10 exStore exDepsUpdateFail exInputPart).1).isOk = false
    ∧ (RefundExecute 10 exStore exDepsUpdateFail exInputPart).2.refunds.map
        (fun r => r.status) = [RefundStatus.pending]
    ∧ RefundStatus.pending ≠ RefundStatus.failed := by
  exact ⟨rfl, rfl, by decide⟩

/-- C6 amended: after the refund entity is created and persisted, only a
failure of the payment collaborator leaves the persisted refund in the
terminal failed state, with code REFUND_FAILED and the collaborator
message, the error propagated and the transaction untouched; a store
failure at the first post-creation update instead leaves the persisted
refund in pending, and the guard transitions themselves cannot fail in
this flow. -/
theorem refund_failure_recording_characterization
    (now : Int) (st : Store) (deps : RefundDeps) (input : RefundInput)
    (t : Transaction) (gatewayErr : String)
    (hfind : st.getTransactionByID input.transactionID = some t)
    (hpartner : t.partnerID = input.partnerID)
    (hrefundable : t.isRefundable now = true)
    (hwindow : ¬ t.createdAt < now - ninetyDaysSeconds)
    (hamin : 1 ≤ input.amount) (hamax : input.amount ≤ 10000000)
    (hcur : activeCurrencies.contains input.currency = true)
    (hle : ¬ t.amount.amount < input.amount)
    (hsum : ¬ st.sumCompletedRefunds t.id + input.amount > t.amount.amount)
    (hcurmatch : input.currency = t.amount.currency)
    (hreason : ¬ input.reason = "") (htid : ¬ t.id = 0)
    (hcreate : deps.createRefundOk = true)
    (hfresh : ∀ r ∈ st.refunds, r.id ≠ deps.newRefundID) :
    (deps.updateRefundProcessingOk = true →
      deps.processRefund = .error gatewayErr →
      deps.updateRefundFailedOk = true →
      (RefundExecute now st deps input).1 = .error (.dependency gatewayErr)
      ∧ (RefundExecute now st deps input).2.transactions = st.transactions
      ∧ ∀ r ∈ (RefundExecute now st deps input).2.refunds, r.id = deps.newRefundID →
          r.status = .failed ∧ r.errorCode = "REFUND_FAILED" ∧ r.errorMessage = gatewayErr)
    ∧
    (deps.updateRefundProcessingOk = false →
      (RefundExecute now st deps input).1 = .error (.storeFailure "failed to update refund")
      ∧ ∀ r ∈ (RefundExecute now st deps input).2.refunds, r.id = deps.newRefundID →
          r.status = .pending) := by
  have hred := refundExecute_after_guards now st deps input t hfind hpartner
    hrefundable hwindow hamin hamax hcur hle hsum hcurmatch hreason htid
  constructor
  · intro hupd1 hgw hupdf
    rw [hcreate, hupd1, hgw, hupdf] at hred
    simp only [eq_self_iff_true, not_true, if_false, ite_false, if_true, ite_true] at hred
    set R0 := freshRefund deps.newRefundID t.id ⟨input.amount, input.currency⟩ input.reason now with hR0def
    set R1 := processingOf R0 now with hR1def
    set RF := failedOf R1 "REFUND_FAILED" gatewayErr now with hRFdef
    have hR0id : R0.id = deps.newRefundID := rfl
    have hR1id : R1.id = deps.newRefundID := rfl
    have hRFid : RF.id = deps.newRefundID := rfl
    refine ⟨by rw [hred], ?_, ?_⟩
    · rw [hred]
      simp [Store.insertRefund, Store.updateRefund]
    · intro r hr hid
      rw [hred] at hr
      simp only [Store.insertRefund, Store.updateRefund] at hr
      obtain ⟨y1, hy1, rfl⟩ := List.mem_map.mp hr
      obtain ⟨y0, hy0, rfl⟩ := List.mem_map.mp hy1
      rcases List.mem_append.mp hy0 with hy | hy
      · exfalso
        have hne : y0.id ≠ deps.newRefundID := hfresh y0 hy
        have h1 : (if y0.id = R1.id then R1 else y0) = y0 := if_neg (by rw [hR1id]; exact hne)
        rw [h1] at hid
        have h2 : (if y0.id = RF.id then RF else y0) = y0 := if_neg (by rw [hRFid]; exact hne)
        rw [h2] at hid
        exact hne hid
      · simp only [List.mem_singleton] at hy
        subst hy
        have h1 : (if R0.id = R1.id then R1 else R0) = R1 := if_pos (by rw [hR1id, hR0id])
        rw [h1]
        have h2 : (if R1.id = RF.id then RF else R1) = RF := if_pos (by rw [hRFid, hR1id])
        rw [h2]
        exact ⟨rfl, rfl, rfl⟩
  · intro hupd1
    rw [hcreate, hupd1] at hred
    simp only [eq_self_iff_true, not_true, if_false, ite_false, Bool.false_eq_true,
      not_false_iff, if_true, ite_true] at hred
    refine ⟨by rw [hred], ?_⟩
    intro r hr hid
    rw [hred] at hr
    simp only [Store.insertRefund, List.mem_append, List.mem_singleton] at hr
    rcases hr with hr | hr
    · exact absurd hid (hfresh r hr)
    · subst hr
      rfl

/-- C6 witness: on the example store, a declining gateway leaves the
persisted refund failed with the decline message recorded and the
transaction rows untouched; and the counterexample deps with the failing
update leave it pending. -/
theorem refund_failure_recording_characterization_witness :
    ((RefundExecute 10 exStore
        { exDeps with processRefund := .error "no funds" } exInputPart).1
      = .error (.dependency "no funds")
    ∧ (RefundExecute 10 exStore
        { exDeps with processRefund := .error "no funds" } exInputPart).2.transactions
      = exStore.transactions
    ∧ ∀ r ∈ (RefundExecute 10 exStore
        { exDeps with processRefund := .error "no funds" } exInputPart).2.refunds,
        r.id = ({ exDeps with processRefund := .error "no funds" } : RefundDeps).newRefundID →
          r.status = .failed ∧ r.errorCode = "REFUND_FAILED" ∧ r.errorMessage = "no funds")
    ∧ ((RefundExecute 10 exStore exDepsUpdateFail exInputPart).1
      = .error (.storeFailure "failed to update refund")
    ∧ ∀ r ∈ (RefundExecute 10 exStore exDepsUpdateFail exInputPart).2.refunds,
        r.id = exDepsUpdateFail.newRefundID → r.status = .pending) := by
  constructor
  · exact (refund_failure_recording_characterization 10 exStore
      { exDeps with processRefund := .error "no funds" } exInputPart
      exTransaction "no funds" rfl rfl rfl (by decide) (by decide) (by decide) rfl
      (by decide) (by decide) rfl (by decide) (by decide) rfl
      (by intro r hr; cases hr)).1 rfl rfl rfl
  · exact (refund_failure_recording_characterization 10 exStore
      exDepsUpdateFail exInputPart
      exTransaction "unused" rfl rfl rfl (by decide) (by decide) (by decide) rfl
      (by decide) (by decide) rfl (by decide) (by decide) rfl
      (by intro r hr; cases hr)).2 rfl
